import Mathlib

/-!
Verification of the OgbujiPT repository excerpt (prompt-style formatter,
PGVector table-name validation, and the OpenAI-compatible LLM wrapper)
against its natural-language specification.

The Python sources are shallowly embedded: pure functions become Lean
functions, `dict`s become ordered association lists, exceptions become
an explicit `Except` with an error taxonomy mirroring Python's exception
classes, and the process-global configuration of the `openai` client is
threaded as explicit state.
-/

/-- Error taxonomy mirroring the Python exception classes that the
embedded code can raise.  `valueError` carries the positional arguments
of the `ValueError` (as strings), `runtimeError` and `typeError` carry
their message, `keyError` the missing key. -/
inductive PyErr where
  | valueError (args : List String)
  | runtimeError (msg : String)
  | keyError (k : String)
  | indexError
  | typeError (msg : String)
  | stopIteration
  | apiError (msg : String)
  deriving DecidableEq, Repr

/-- Model of a Python (JSON-shaped) value: strings, integers, lists,
string-keyed dicts in insertion order, and `None`. -/
inductive PyVal where
  | str (s : String)
  | int (n : Int)
  | list (xs : List PyVal)
  | dict (d : List (String × PyVal))
  | none
  deriving Repr

/- ---------------------------------------------------------------------
src/pylib/model_style/alvic.py
--------------------------------------------------------------------- -/

/-- The `sub_style` enum of `alvic.py`. -/
inductive sub_style where
  | ALPACA
  | ALPACA_INSTRUCT
  | VICUNA
  deriving DecidableEq, Repr

/-- The `sub` argument of `make_prompt` as the caller may pass it: either
one of the three enum members, or any other Python value (identified by
its textual representation), which is equal to no enum member. -/
inductive prompt_selector where
  | style (s : sub_style)
  | other (v : String)
  deriving DecidableEq, Repr

/-- Embedding of `make_prompt` from `alvic.py`.  The `.format` calls on
`ALPACA_PROMPT_TMPL` / `VICUNA_PROMPT_TMPL` are inlined as string
concatenation (the templates contain no braces other than the two
substitution fields, and `str.format` does not reprocess substituted
values).  `if inputs` is Python string truthiness, i.e. `inputs ≠ ""`. -/
def make_prompt (msg : String) (inputs : String) (sub : prompt_selector) :
    Except PyErr String :=
  match sub with
  | .style sub_style.ALPACA | .style sub_style.ALPACA_INSTRUCT =>
    let instru_inputs :=
      msg ++ "\n" ++ (if inputs ≠ "" then "### Inputs:\n" ++ inputs else "") ++ "\n"
    let instru_marker :=
      if sub = .style sub_style.ALPACA_INSTRUCT then "### Instruction:\n\n" else ""
    .ok (instru_marker ++ instru_inputs ++ "\n\n### Response:\n")
  | .style sub_style.VICUNA =>
    .ok ("### USER:\n\n" ++ msg ++ "\n\n### ASSISTANT:\n")
  | .other v =>
    .error (.valueError ["Prompt substyle should be Alpaca or Vicuna, not ", v])

/- ---------------------------------------------------------------------
src/pylib/embedding/pgvector.py : table-name validation in
PGVectorHelper.__init__
--------------------------------------------------------------------- -/

/-- Python `str.isalnum` restricted to ASCII strings: true iff the string
is nonempty and every character is a letter or a digit.  (On ASCII
characters this agrees exactly with CPython; the theorems about it are
stated for ASCII strings.) -/
def pyIsalnum (s : String) : Bool :=
  !s.data.isEmpty && s.data.all (fun c => c.isAlpha || c.isDigit)

/-- Python `table_name.replace('_', '')`: drop every underscore. -/
def pyReplaceUnderscore (s : String) : String :=
  ⟨s.data.filter (fun c => c != '_')⟩

/-- The table-name validation performed by `PGVectorHelper.__init__`:
`if not table_name.replace('_', '').isalnum(): raise ValueError(...)`. -/
def PGVectorHelper.table_name_check (table_name : String) : Except PyErr Unit :=
  if !pyIsalnum (pyReplaceUnderscore table_name) then
    .error (.valueError ["table_name must be alphanumeric, with underscore also allowed"])
  else
    .ok ()

/-- A string made of ASCII characters only. -/
def ascii_string (s : String) : Bool :=
  s.data.all (fun c => c.toNat < 128)

/-- The amended character-class rule: at least one letter or digit, and
nothing but letters, digits and underscores.  (The spec's original rule
omitted the first condition.) -/
def amended_table_name_rule (s : String) : Bool :=
  s.data.any (fun c => c.isAlpha || c.isDigit) &&
    s.data.all (fun c => c.isAlpha || c.isDigit || c == '_')

theorem underscore_not_alnum : ('_'.isAlpha || '_'.isDigit) = false := by decide

theorem table_check_core (l : List Char) :
    ((!(l.filter (fun c => c != '_')).isEmpty &&
        (l.filter (fun c => c != '_')).all (fun c => c.isAlpha || c.isDigit)) = true) ↔
      ((l.any (fun c => c.isAlpha || c.isDigit) &&
        l.all (fun c => c.isAlpha || c.isDigit || c == '_')) = true) := by
  simp only [Bool.and_eq_true, List.all_eq_true, List.any_eq_true, List.mem_filter,
    Bool.not_eq_true', List.isEmpty_eq_false_iff_exists_mem, bne_iff_ne, ne_eq,
    Bool.or_eq_true, beq_iff_eq]
  constructor
  · rintro ⟨⟨c, ⟨hcl, hcne⟩⟩, hall⟩
    refine ⟨⟨c, hcl, hall c ⟨hcl, hcne⟩⟩, ?_⟩
    intro x hx
    by_cases hx_ : x = '_'
    · exact Or.inr hx_
    · exact Or.inl (hall x ⟨hx, hx_⟩)
  · rintro ⟨⟨c, hcl, hcal⟩, hall⟩
    have hcne : c ≠ '_' := by
      intro h
      rw [h] at hcal
      rcases hcal with h1 | h1 <;> simp at h1
    refine ⟨⟨c, hcl, hcne⟩, ?_⟩
    rintro x ⟨hxl, hxne⟩
    rcases hall x hxl with h1 | h1
    · exact h1
    · exact absurd h1 hxne

/-- C1: the spec claims that every string consisting only of letters,
digits and underscores passes the table-name validation.  The string
`"_"` consists only of such characters, yet the validation rejects it:
`"_".replace('_', '')` is the empty string and Python's `isalnum` is
false on the empty string. -/
theorem C1_counterexample :
    ("_".data.all (fun c => c.isAlpha || c.isDigit || c == '_') = true) ∧
      PGVectorHelper.table_name_check "_" =
        .error (.valueError ["table_name must be alphanumeric, with underscore also allowed"]) :=
  ⟨by decide, by rfl⟩

/-- C1 (amended): for every ASCII string, PGVectorHelper construction
passes the table-name validation exactly when the name consists only of
letters, digits and underscores AND contains at least one letter or
digit; in particular names that are empty or all underscores are
rejected with the InvalidArgument condition, as is every name containing
a character outside the class. -/
theorem C1_table_name_validation (s : String) (_h : ascii_string s = true) :
    PGVectorHelper.table_name_check s = .ok () ↔ amended_table_name_rule s = true := by
  have step : PGVectorHelper.table_name_check s = .ok () ↔
      pyIsalnum (pyReplaceUnderscore s) = true := by
    unfold PGVectorHelper.table_name_check
    cases hpy : pyIsalnum (pyReplaceUnderscore s) <;> simp [hpy]
  rw [step]
  exact table_check_core s.data

/-- C1 witness: the concrete ASCII table name `"tbl_1"` discharges the
hypothesis of `C1_table_name_validation`. -/
theorem C1_witness :
    (ascii_string "tbl_1" = true) ∧
      (PGVectorHelper.table_name_check "tbl_1" = .ok () ↔
        amended_table_name_rule "tbl_1" = true) :=
  ⟨by decide, C1_table_name_validation "tbl_1" (by decide)⟩

/- String helpers used to reason about the template concatenations. -/

theorem str_data_append (s t : String) : (s ++ t).data = s.data ++ t.data := rfl

theorem str_ext {s t : String} (h : s.data = t.data) : s = t :=
  congrArg String.mk h

theorem alpaca_empty_inputs_shape (msg : String) :
    ("" : String) ++ (msg ++ "\n" ++ "" ++ "\n") ++ "\n\n### Response:\n" =
      msg ++ "\n\n\n\n### Response:\n" := by
  apply str_ext
  simp only [str_data_append, List.append_assoc, List.nil_append, List.append_nil]
  have h1 : ("" : String).data = ([] : List Char) := rfl
  have h2 : ("\n" : String).data = ['\n'] := rfl
  have h3 : ("\n\n\n\n### Response:\n" : String).data =
      '\n' :: '\n' :: ("\n\n### Response:\n" : String).data := rfl
  simp [h1, h2, h3]

/-- C2: the spec claims `make_prompt("Knock knock!", sub=ALPACA)` is
exactly `"Knock knock!\n\n\n### Response:\n"`.  The code produces four
newlines between the message and `### Response:` (two from
`instru_inputs = msg + "\n" + "" + "\n"` and two from the template), so
the claimed string with three newlines is wrong. -/
theorem C2_counterexample :
    make_prompt "Knock knock!" "" (.style .ALPACA) =
        .ok "Knock knock!\n\n\n\n### Response:\n" ∧
      ("Knock knock!\n\n\n\n### Response:\n" : String) ≠
        "Knock knock!\n\n\n### Response:\n" :=
  ⟨by rfl, by decide⟩

/-- C2 (amended): for every message with empty auxiliary input and style
ALPACA, `make_prompt` returns the message followed by the literal
`"\n\n\n\n### Response:\n"` — no `### Inputs:` section and no
instruction marker — exactly as `ALPACA_PROMPT_TMPL` prescribes with
`instru_inputs = msg + "\n\n"`; in particular the result for
`"Knock knock!"` is `"Knock knock!\n\n\n\n### Response:\n"`. -/
theorem C2_alpaca_empty_inputs :
    (∀ msg : String,
      make_prompt msg "" (.style .ALPACA) = .ok (msg ++ "\n\n\n\n### Response:\n")) ∧
      make_prompt "Knock knock!" "" (.style .ALPACA) =
        .ok "Knock knock!\n\n\n\n### Response:\n" := by
  constructor
  · intro msg
    show Except.ok (("" : String) ++ (msg ++ "\n" ++ "" ++ "\n") ++ "\n\n### Response:\n") =
      Except.ok (msg ++ "\n\n\n\n### Response:\n")
    rw [alpaca_empty_inputs_shape]
  · rfl

/-- C3: the spec claims `make_prompt("Knock knock!", sub=VICUNA)` is
exactly `"### USER:\n\n Knock knock!\n\n### ASSISTANT:\n"` — with a
space before the message.  The template puts the message directly after
the blank line, with no space. -/
theorem C3_counterexample :
    make_prompt "Knock knock!" "" (.style .VICUNA) =
        .ok "### USER:\n\nKnock knock!\n\n### ASSISTANT:\n" ∧
      ("### USER:\n\nKnock knock!\n\n### ASSISTANT:\n" : String) ≠
        "### USER:\n\n Knock knock!\n\n### ASSISTANT:\n" :=
  ⟨by rfl, by decide⟩

/-- C3 (amended): for every message, `make_prompt` with style VICUNA
renders exactly `"### USER:\n\n" ++ msg ++ "\n\n### ASSISTANT:\n"`; in
particular `"Knock knock!"` yields
`"### USER:\n\nKnock knock!\n\n### ASSISTANT:\n"` (no space inserted
before the message). -/
theorem C3_vicuna_template :
    (∀ msg inputs : String,
      make_prompt msg inputs (.style .VICUNA) =
        .ok ("### USER:\n\n" ++ msg ++ "\n\n### ASSISTANT:\n")) ∧
      make_prompt "Knock knock!" "" (.style .VICUNA) =
        .ok "### USER:\n\nKnock knock!\n\n### ASSISTANT:\n" :=
  ⟨fun _ _ => rfl, by rfl⟩

/-- C4: for every selector value other than the three named styles,
`make_prompt` fails with a ValueError whose arguments name the received
value, and for each of the three enum members it never fails (it returns
some rendered prompt). -/
theorem C4_selector_validation :
    (∀ (msg inputs v : String),
      make_prompt msg inputs (.other v) =
        .error (.valueError ["Prompt substyle should be Alpaca or Vicuna, not ", v])) ∧
      (∀ (msg inputs : String) (s : sub_style),
        ∃ out, make_prompt msg inputs (.style s) = .ok out) := by
  refine ⟨fun _ _ _ => rfl, fun msg inputs s => ?_⟩
  cases s <;> exact ⟨_, rfl⟩

/-- C10: the auxiliary-inputs argument has no effect on the VICUNA-style
output of `make_prompt`: any two inputs yield the same string. -/
theorem C10_vicuna_ignores_inputs :
    ∀ (msg i1 i2 : String),
      make_prompt msg i1 (.style .VICUNA) = make_prompt msg i2 (.style .VICUNA) :=
  fun _ _ _ => rfl

/- ---------------------------------------------------------------------
src/pylib/llm_wrapper.py : dict and keyword-argument semantics
--------------------------------------------------------------------- -/


/-- Python dict assignment `d[k] = v` on an insertion-ordered dict with
unique keys: if the key is present its value is replaced in place,
otherwise the pair is appended at the end. -/
def dictInsert (d : List (String × PyVal)) (k : String) (v : PyVal) :
    List (String × PyVal) :=
  match d with
  | [] => [(k, v)]
  | (k1, v1) :: rest => if k1 == k then (k, v) :: rest else (k1, v1) :: dictInsert rest k v

/-- Python dict merge `{**a, **b}`: keys of `a` in order (values
overridden by `b` where both have the key), then the new keys of `b` in
order.  Later entries win on collision. -/
def dictMerge (a b : List (String × PyVal)) : List (String × PyVal) :=
  b.foldl (fun acc kv => dictInsert acc kv.1 kv.2) a

/-- CPython keyword-argument assembly `f(..., **d)` folding the entries
of `d` into the keyword arguments collected so far: a key already
present raises `TypeError: got multiple values for keyword argument`. -/
def mergeCallDict (acc : List (String × PyVal)) :
    List (String × PyVal) → Except PyErr (List (String × PyVal))
  | [] => .ok acc
  | (k, v) :: rest =>
    if (acc.lookup k).isSome then
      .error (.typeError ("got multiple values for keyword argument \x27" ++ k ++ "\x27"))
    else
      mergeCallDict (acc ++ [(k, v)]) rest

/-- CPython call assembly `f(named..., **d₁, **d₂, ...)`: start from the
explicitly named keyword arguments and fold in each double-star dict. -/
def buildCallKwargs (named : List (String × PyVal)) :
    List (List (String × PyVal)) → Except PyErr (List (String × PyVal))
  | [] => .ok named
  | d :: rest =>
    match mergeCallDict named d with
    | .error e => .error e
    | .ok acc => buildCallKwargs acc rest

/- Lemmas about the dict operations. -/

theorem lookup_dictInsert_self (d : List (String × PyVal)) (k : String) (v : PyVal) :
    (dictInsert d k v).lookup k = some v := by
  induction d with
  | nil => simp [dictInsert, List.lookup]
  | cons kv rest ih =>
    obtain ⟨k1, v1⟩ := kv
    by_cases h : k1 = k
    · simp [dictInsert, h, List.lookup]
    · have hbeq : (k1 == k) = false := beq_eq_false_iff_ne.mpr h
      have hbeq2 : (k == k1) = false := beq_eq_false_iff_ne.mpr (fun hc => h hc.symm)
      simp [dictInsert, hbeq, List.lookup, hbeq2, ih]

theorem lookup_dictInsert_ne (d : List (String × PyVal)) (k k2 : String) (v : PyVal)
    (h : k2 ≠ k) : (dictInsert d k v).lookup k2 = d.lookup k2 := by
  have hbeq : (k2 == k) = false := beq_eq_false_iff_ne.mpr h
  induction d with
  | nil => simp [dictInsert, List.lookup, hbeq]
  | cons kv rest ih =>
    obtain ⟨k1, v1⟩ := kv
    by_cases h1 : k1 = k
    · subst h1
      simp [dictInsert, List.lookup, hbeq]
    · have hbeq1 : (k1 == k) = false := beq_eq_false_iff_ne.mpr h1
      cases hbeq2 : (k2 == k1) with
      | true => simp [dictInsert, hbeq1, List.lookup, hbeq2]
      | false => simp [dictInsert, hbeq1, List.lookup, hbeq2, ih]

theorem lookup_append_of_none (a b : List (String × PyVal)) (k : String)
    (h : a.lookup k = none) : (a ++ b).lookup k = b.lookup k := by
  induction a with
  | nil => simp
  | cons kv rest ih =>
    simp only [List.lookup, List.cons_append] at h ⊢
    cases hbeq : (k == kv.1) with
    | true => simp [hbeq] at h
    | false =>
      simp only [hbeq] at h ⊢
      exact ih h

theorem lookup_append_none (a b : List (String × PyVal)) (k : String)
    (h : (a ++ b).lookup k = none) : a.lookup k = none ∧ b.lookup k = none := by
  induction a with
  | nil => simpa using h
  | cons kv rest ih =>
    simp only [List.lookup, List.cons_append] at h ⊢
    cases hbeq : (k == kv.1) with
    | true => simp [hbeq] at h
    | false =>
      simp only [hbeq] at h ⊢
      exact ih h

theorem lookup_isSome_of_mem_keys (d : List (String × PyVal)) (k : String)
    (h : k ∈ d.map Prod.fst) : (d.lookup k).isSome = true := by
  induction d with
  | nil => simp at h
  | cons kv rest ih =>
    simp only [List.map_cons, List.mem_cons] at h
    simp only [List.lookup]
    cases hbeq : (k == kv.1) with
    | true => simp
    | false =>
      rcases h with h | h
      · rw [beq_eq_false_iff_ne] at hbeq
        exact absurd h hbeq
      · exact ih h

theorem dictMerge_lookup_not_mem (a b : List (String × PyVal)) (k : String)
    (h : k ∉ b.map Prod.fst) : (dictMerge a b).lookup k = a.lookup k := by
  induction b generalizing a with
  | nil => rfl
  | cons kv rest ih =>
    obtain ⟨k1, v1⟩ := kv
    simp only [List.map_cons, List.mem_cons, not_or] at h
    show (dictMerge (dictInsert a k1 v1) rest).lookup k = a.lookup k
    rw [ih (dictInsert a k1 v1) h.2]
    exact lookup_dictInsert_ne a k1 k v1 h.1

theorem dictMerge_lookup_mem (a b : List (String × PyVal)) (k : String)
    (hnd : (b.map Prod.fst).Nodup) (h : k ∈ b.map Prod.fst) :
    (dictMerge a b).lookup k = b.lookup k := by
  induction b generalizing a with
  | nil => simp at h
  | cons kv rest ih =>
    obtain ⟨k1, v1⟩ := kv
    simp only [List.map_cons, List.mem_cons] at h
    simp only [List.map_cons, List.nodup_cons] at hnd
    show (dictMerge (dictInsert a k1 v1) rest).lookup k = _
    by_cases hk1 : k = k1
    · subst hk1
      rw [dictMerge_lookup_not_mem (dictInsert a k v1) rest k hnd.1]
      rw [lookup_dictInsert_self]
      simp [List.lookup]
    · rcases h with h | h
      · exact absurd h hk1
      · rw [ih (dictInsert a k1 v1) hnd.2 h]
        have hbeq : (k == k1) = false := beq_eq_false_iff_ne.mpr hk1
        simp [List.lookup, hbeq]

theorem mergeCallDict_ok_append (a d out : List (String × PyVal))
    (h : mergeCallDict a d = .ok out) : out = a ++ d := by
  induction d generalizing a with
  | nil =>
    simp only [mergeCallDict] at h
    cases h
    simp
  | cons kv rest ih =>
    obtain ⟨k1, v1⟩ := kv
    simp only [mergeCallDict] at h
    by_cases hs : (a.lookup k1).isSome
    · simp [hs] at h
    · rw [if_neg hs] at h
      rw [ih (a ++ [(k1, v1)]) h]
      simp

theorem mergeCallDict_ok_disjoint (a d out : List (String × PyVal))
    (h : mergeCallDict a d = .ok out) :
    ∀ k ∈ d.map Prod.fst, a.lookup k = none := by
  induction d generalizing a with
  | nil => simp
  | cons kv rest ih =>
    obtain ⟨k1, v1⟩ := kv
    simp only [mergeCallDict] at h
    by_cases hs : (a.lookup k1).isSome
    · simp [hs] at h
    · rw [if_neg hs] at h
      intro k hk
      simp only [List.map_cons, List.mem_cons] at hk
      rcases hk with hk | hk
      · subst hk
        cases hcase : a.lookup k with
        | none => rfl
        | some x => rw [hcase] at hs; simp at hs
      · have := ih (a ++ [(k1, v1)]) h k hk
        exact (lookup_append_none a [(k1, v1)] k this).1

theorem mergeCallDict_error_shape (a d : List (String × PyVal)) (e : PyErr)
    (h : mergeCallDict a d = .error e) : ∃ m, e = .typeError m := by
  induction d generalizing a with
  | nil => simp [mergeCallDict] at h
  | cons kv rest ih =>
    obtain ⟨k1, v1⟩ := kv
    simp only [mergeCallDict] at h
    by_cases hs : (a.lookup k1).isSome
    · rw [if_pos hs] at h
      cases h
      exact ⟨_, rfl⟩
    · rw [if_neg hs] at h
      exact ih (a ++ [(k1, v1)]) h

theorem mergeCallDict_ok_of_disjoint (a d : List (String × PyVal))
    (hnd : (d.map Prod.fst).Nodup)
    (h : ∀ k ∈ d.map Prod.fst, a.lookup k = none) :
    mergeCallDict a d = .ok (a ++ d) := by
  induction d generalizing a with
  | nil => simp [mergeCallDict]
  | cons kv rest ih =>
    obtain ⟨k1, v1⟩ := kv
    simp only [List.map_cons, List.nodup_cons] at hnd
    have h1 : a.lookup k1 = none := h k1 (by simp)
    simp only [mergeCallDict, h1]
    rw [if_neg (by simp)]
    have hrest : ∀ k ∈ rest.map Prod.fst, (a ++ [(k1, v1)]).lookup k = none := by
      intro k hk
      have hka : a.lookup k = none := h k (by simp [hk])
      rw [lookup_append_of_none a [(k1, v1)] k hka]
      have hne : k ≠ k1 := fun hc => hnd.1 (hc ▸ hk)
      simp [List.lookup, beq_eq_false_iff_ne.mpr hne]
    rw [ih (a ++ [(k1, v1)]) hnd.2 hrest]
    simp

/- ---------------------------------------------------------------------
src/pylib/llm_wrapper.py : response-shape helpers
--------------------------------------------------------------------- -/

mutual

/-- Python `repr` of a modelled value (mutual with its list/dict entry
renderings). -/
def pyRepr : PyVal → String
  | .str s => "\x27" ++ s ++ "\x27"
  | .int n => toString n
  | .none => "None"
  | .list xs => "[" ++ pyReprList xs ++ "]"
  | .dict d => "\x7b" ++ pyReprDict d ++ "\x7d"

def pyReprList : List PyVal → String
  | [] => ""
  | [x] => pyRepr x
  | x :: rest => pyRepr x ++ ", " ++ pyReprList rest

def pyReprDict : List (String × PyVal) → String
  | [] => ""
  | [(k, v)] => "\x27" ++ k ++ "\x27: " ++ pyRepr v
  | (k, v) :: rest => "\x27" ++ k ++ "\x27: " ++ pyRepr v ++ ", " ++ pyReprDict rest

end

/-- Python subscription `v[k]` with a string key: dict lookup (KeyError
when the key is absent), TypeError on non-dicts. -/
def pySubscrStr (v : PyVal) (k : String) : Except PyErr PyVal :=
  match v with
  | .dict d =>
    match d.lookup k with
    | some x => .ok x
    | Option.none => .error (.keyError k)
  | .str _ => .error (.typeError "string indices must be integers")
  | _ => .error (.typeError "object is not subscriptable with a string key")

/-- Python subscription `v[i]` with a non-negative integer index: list
indexing (IndexError when out of range), string indexing (one-character
string), KeyError on a string-keyed dict, TypeError otherwise. -/
def pySubscrIdx (v : PyVal) (i : Nat) : Except PyErr PyVal :=
  match v with
  | .list xs =>
    match xs[i]? with
    | some x => .ok x
    | Option.none => .error .indexError
  | .dict _ => .error (.keyError (toString i))
  | .str s =>
    match s.data[i]? with
    | some c => .ok (.str (String.singleton c))
    | Option.none => .error .indexError
  | _ => .error (.typeError "object is not subscriptable")

/-- The message of the RuntimeError raised by
`openai_api.first_choice_text` on an unexpected response shape; it
embeds `repr(response)`. -/
def completion_struct_msg (response : PyVal) : String :=
  "Response does not appear to be an OpenAI API completion structure, as expected:\n"
    ++ pyRepr response

/-- The message of the RuntimeError raised by
`openai_chat_api.first_choice_message` on an unexpected response shape;
it embeds `repr(response)`. -/
def chat_struct_msg (response : PyVal) : String :=
  "Response does not appear to be an OpenAI API chat-style completion structure, as expected:\n"
    ++ pyRepr response

/-- Embedding of `openai_api.first_choice_text`: evaluate
`response['choices'][0]['text']`; a KeyError anywhere along the path is
converted to the RuntimeError above, while any other failure (notably
the IndexError from an empty `choices` list) propagates unchanged. -/
def first_choice_text (response : PyVal) : Except PyErr PyVal :=
  match (pySubscrStr response "choices").bind
      (fun c => (pySubscrIdx c 0).bind (fun c0 => pySubscrStr c0 "text")) with
  | .ok v => .ok v
  | .error (.keyError _) => .error (.runtimeError (completion_struct_msg response))
  | .error e => .error e

/-- Embedding of `openai_chat_api.first_choice_message`: evaluate
`response['choices'][0]['message']['content']` with the same KeyError
conversion as `first_choice_text`. -/
def first_choice_message (response : PyVal) : Except PyErr PyVal :=
  match (pySubscrStr response "choices").bind
      (fun c => (pySubscrIdx c 0).bind
        (fun c0 => (pySubscrStr c0 "message").bind
          (fun m => pySubscrStr m "content"))) with
  | .ok v => .ok v
  | .error (.keyError _) => .error (.runtimeError (chat_struct_msg response))
  | .error e => .error e

/- ---------------------------------------------------------------------
src/pylib/llm_wrapper.py : openai_api / openai_chat_api
--------------------------------------------------------------------- -/

/-- Python `len`. -/
def pyLen : PyVal → Except PyErr Nat
  | .str s => .ok s.length
  | .list xs => .ok xs.length
  | .dict d => .ok d.length
  | _ => .error (.typeError "object has no len")

/-- Embedding of `openai_api.available_models`.  The argument is the
decoded JSON body of `GET <api_base>/models` (or the failure of that
HTTP call).  The code evaluates `next(iter(i['id'] for i in
resp['data']))`: the `id` of the FIRST entry only; an empty `data`
raises StopIteration, a non-list `data` fails when iterated/indexed. -/
def available_models (models_resp : Except PyErr PyVal) : Except PyErr PyVal :=
  models_resp.bind fun resp =>
    (pySubscrStr resp "data").bind fun data =>
      match data with
      | .list [] => .error .stopIteration
      | .list (x :: _) => pySubscrStr x "id"
      | .dict [] => .error .stopIteration
      | .dict _ => .error (.typeError "string indices must be integers")
      | .str "" => .error .stopIteration
      | .str _ => .error (.typeError "string indices must be integers")
      | _ => .error (.typeError "object is not iterable")

/-- Embedding of `openai_api.hosted_model`: `models =
self.available_models()`; `if len(models) > 1: return models` else
return the wrapper's current `self.model`. -/
def hosted_model (self_model : PyVal) (models_resp : Except PyErr PyVal) :
    Except PyErr PyVal :=
  (available_models models_resp).bind fun models =>
    (pyLen models).bind fun n =>
      if n > 1 then .ok models else .ok self_model

/-- The per-instance attributes of an `openai_api` wrapper (shared by
`openai_chat_api`, which adds none).  `original_model` is `None` or the
user-pinned model name (`model or None` in `__init__`). -/
structure openai_api where
  model : PyVal
  original_model : Option String
  api_key : String
  api_base : String
  parameters : List (String × PyVal)

/-- The process-wide mutable configuration of the `openai` client
module, modelled as a string-keyed attribute dict. -/
abbrev Globals := List (String × PyVal)

/-- The `OPENAI_GLOBALS` list of recognized global setting names. -/
def OPENAI_GLOBALS : List String :=
  ["api_key", "api_key_path", "api_base", "organization", "api_type", "api_version",
   "proxy", "app_info", "debug", "log"]

/-- Embedding of `openai_api._claim_global_context`: copy each
recognized key of the parameter bag onto the client globals, set the
global model / api_key / api_base, and — when no model was pinned at
construction — re-introspect the hosted model and adopt it as
`self.model`.  Returns the updated globals together with the updated
instance (or the propagated introspection failure; the global updates
precede the fallible introspection, the instance update does not
happen on failure). -/
def openai_api.claim_global_context (self : openai_api) (g : Globals)
    (models_resp : Except PyErr PyVal) : Globals × Except PyErr openai_api :=
  let g1 := OPENAI_GLOBALS.foldl
    (fun acc k =>
      match self.parameters.lookup k with
      | some v => dictInsert acc k v
      | Option.none => acc) g
  let g2 := dictInsert (dictInsert (dictInsert g1 "model" self.model)
    "api_key" (.str self.api_key)) "api_base" (.str self.api_base)
  match self.original_model with
  | some _ => (g2, .ok self)
  | Option.none =>
    match hosted_model self.model models_resp with
    | .error e => (g2, .error e)
    | .ok m => (g2, .ok { self with model := m })

/-- The sentinel-rewrite step at the end of `openai_api.__call__`:
`if result.get('model') == 'HOSTED_MODEL': result['model'] = self.model`. -/
def hosted_model_rewrite (self_model : PyVal) (result : List (String × PyVal)) :
    List (String × PyVal) :=
  match result.lookup "model" with
  | some (.str m) =>
    if m = "HOSTED_MODEL" then dictInsert result "model" self_model else result
  | _ => result

/-- Embedding of `openai_api.__call__`.  `api_func` stands for the
(caller-overridable) completion endpoint; `models_resp` is the
environment's answer to the model-listing HTTP call that
`_claim_global_context` may make.  Python evaluates
`api_func(model=self.model, prompt=prompt, **merged_kwargs)` with
`merged_kwargs = <dict merge of self.parameters and kwargs>`, then
rewrites a sentinel `HOSTED_MODEL` in the result.  The final instance
state and globals are returned alongside the call outcome. -/
def openai_api.call (self : openai_api) (g : Globals)
    (models_resp : Except PyErr PyVal)
    (api_func : List (String × PyVal) → Except PyErr (List (String × PyVal)))
    (prompt : String) (kwargs : List (String × PyVal)) :
    (openai_api × Globals) × Except PyErr (List (String × PyVal)) :=
  let cg := self.claim_global_context g models_resp
  match cg.2 with
  | .error e => ((self, cg.1), .error e)
  | .ok self1 =>
    let merged_kwargs := dictMerge self1.parameters kwargs
    match buildCallKwargs [("model", self1.model), ("prompt", .str prompt)]
        [merged_kwargs] with
    | .error e => ((self1, cg.1), .error e)
    | .ok call_kwargs =>
      match api_func call_kwargs with
      | .error e => ((self1, cg.1), .error e)
      | .ok result => ((self1, cg.1), .ok (hosted_model_rewrite self1.model result))

/-- Embedding of `openai_chat_api.__call__`: dispatches
`api_func(model=self.model, messages=messages, **self.parameters,
**kwargs)` — two separate double-star expansions, so a key collision
raises TypeError — and returns the result verbatim (no sentinel
rewrite). -/
def openai_chat_api.call (self : openai_api) (g : Globals)
    (models_resp : Except PyErr PyVal)
    (api_func : List (String × PyVal) → Except PyErr (List (String × PyVal)))
    (messages : PyVal) (kwargs : List (String × PyVal)) :
    (openai_api × Globals) × Except PyErr (List (String × PyVal)) :=
  let cg := self.claim_global_context g models_resp
  match cg.2 with
  | .error e => ((self, cg.1), .error e)
  | .ok self1 =>
    match buildCallKwargs [("model", self1.model), ("messages", messages)]
        [self1.parameters, kwargs] with
    | .error e => ((self1, cg.1), .error e)
    | .ok call_kwargs => ((self1, cg.1), api_func call_kwargs)

/-- Discriminator: the outcome is a TypeError. -/
def isTypeErrorResult : Except PyErr (List (String × PyVal)) → Bool
  | .error (.typeError _) => true
  | _ => false

theorem mem_keys_of_lookup_isSome (d : List (String × PyVal)) (k : String)
    (h : (d.lookup k).isSome = true) : k ∈ d.map Prod.fst := by
  induction d with
  | nil => simp [List.lookup] at h
  | cons kv rest ih =>
    simp only [List.lookup] at h
    cases hbeq : (k == kv.1) with
    | true =>
      rw [beq_iff_eq] at hbeq
      simp [hbeq]
    | false =>
      rw [hbeq] at h
      simp [ih h]

theorem dictInsert_keys (d : List (String × PyVal)) (k : String) (v : PyVal) :
    (dictInsert d k v).map Prod.fst = d.map Prod.fst ∨
      (dictInsert d k v).map Prod.fst = d.map Prod.fst ++ [k] := by
  induction d with
  | nil => right; simp [dictInsert]
  | cons kv rest ih =>
    obtain ⟨k1, v1⟩ := kv
    by_cases h1 : k1 = k
    · left
      simp [dictInsert, beq_iff_eq.mpr h1, h1]
    · rcases ih with ih | ih
      · left
        simp [dictInsert, beq_eq_false_iff_ne.mpr h1, ih]
      · right
        simp [dictInsert, beq_eq_false_iff_ne.mpr h1, ih]

theorem dictInsert_keys_mem (d : List (String × PyVal)) (k : String) (v : PyVal)
    (h : k ∈ d.map Prod.fst) :
    (dictInsert d k v).map Prod.fst = d.map Prod.fst := by
  induction d with
  | nil => simp at h
  | cons kv rest ih =>
    obtain ⟨k1, v1⟩ := kv
    by_cases h1 : k1 = k
    · simp [dictInsert, beq_iff_eq.mpr h1, h1]
    · simp only [List.map_cons, List.mem_cons] at h
      rcases h with h | h
      · exact absurd h.symm h1
      · simp [dictInsert, beq_eq_false_iff_ne.mpr h1, ih h]

theorem dictInsert_keys_not_mem (d : List (String × PyVal)) (k : String) (v : PyVal)
    (h : k ∉ d.map Prod.fst) :
    (dictInsert d k v).map Prod.fst = d.map Prod.fst ++ [k] := by
  induction d with
  | nil => simp [dictInsert]
  | cons kv rest ih =>
    obtain ⟨k1, v1⟩ := kv
    simp only [List.map_cons, List.mem_cons, not_or] at h
    have hne : k1 ≠ k := fun hc => h.1 hc.symm
    simp [dictInsert, beq_eq_false_iff_ne.mpr hne, ih h.2]

theorem dictMerge_keys_nodup (a b : List (String × PyVal))
    (ha : (a.map Prod.fst).Nodup) : ((dictMerge a b).map Prod.fst).Nodup := by
  induction b generalizing a with
  | nil => exact ha
  | cons kv rest ih =>
    obtain ⟨k1, v1⟩ := kv
    show ((dictMerge (dictInsert a k1 v1) rest).map Prod.fst).Nodup
    apply ih
    by_cases hmem : k1 ∈ a.map Prod.fst
    · rw [dictInsert_keys_mem a k1 v1 hmem]; exact ha
    · rw [dictInsert_keys_not_mem a k1 v1 hmem]
      simp [List.nodup_append, ha, hmem]

theorem buildCallKwargs_single (named d : List (String × PyVal)) :
    buildCallKwargs named [d] = mergeCallDict named d := by
  unfold buildCallKwargs
  rcases h : mergeCallDict named d with e | acc <;> simp [buildCallKwargs]

theorem buildCallKwargs_pair_error_shape (named p kw : List (String × PyVal))
    (e : PyErr) (h : buildCallKwargs named [p, kw] = .error e) :
    ∃ m, e = .typeError m := by
  unfold buildCallKwargs at h
  rcases h1 : mergeCallDict named p with e1 | acc <;> rw [h1] at h
  · cases h
    exact mergeCallDict_error_shape _ _ _ h1
  · change buildCallKwargs acc [kw] = .error e at h
    rw [buildCallKwargs_single] at h
    exact mergeCallDict_error_shape _ _ _ h

theorem claim_global_context_pinned (self : openai_api) (g : Globals)
    (r : Except PyErr PyVal) (h : self.original_model.isSome = true) :
    (self.claim_global_context g r).2 = .ok self := by
  unfold openai_api.claim_global_context
  rcases h2 : self.original_model with _ | m
  · rw [h2] at h; simp at h
  · simp only [h2]

theorem claim_global_context_ok_fields (self self1 : openai_api) (g : Globals)
    (r : Except PyErr PyVal)
    (h : (self.claim_global_context g r).2 = .ok self1) :
    self1.original_model = self.original_model ∧ self1.parameters = self.parameters ∧
      self1.api_key = self.api_key ∧ self1.api_base = self.api_base := by
  unfold openai_api.claim_global_context at h
  rcases h2 : self.original_model with _ | m <;> rw [h2] at h
  · rcases h3 : hosted_model self.model r with e | m2 <;> rw [h3] at h
    · exact absurd (show (Except.error e : Except PyErr openai_api) = .ok self1 from h)
        (by simp)
    · have h4 := Except.ok.inj
        (show Except.ok (openai_api.mk m2 Option.none self.api_key self.api_base
            self.parameters) = Except.ok self1 from h)
      rw [← h4]
      exact ⟨rfl, rfl, rfl, rfl⟩
  · have h4 := Except.ok.inj (show Except.ok self = Except.ok self1 from h)
    rw [← h4]
    exact ⟨h2, rfl, rfl, rfl⟩

theorem call_state_cases (self : openai_api) (g : Globals) (r : Except PyErr PyVal)
    (f : List (String × PyVal) → Except PyErr (List (String × PyVal)))
    (prompt : String) (kwargs : List (String × PyVal)) :
    (openai_api.call self g r f prompt kwargs).1.1 = self ∨
      (self.claim_global_context g r).2 =
        .ok ((openai_api.call self g r f prompt kwargs).1.1) := by
  unfold openai_api.call
  rcases hcg : (self.claim_global_context g r).2 with e | self1
  · left; simp [hcg]
  · right
    simp only [hcg]
    split <;> (try split) <;> rfl

/-- C8: the claim says `available_models` returns the sequence of all n
model identifiers from ` {"data": [{"id": ...}, ...]} `, in order.  The
code evaluates `next(iter(i['id'] for i in resp['data']))` and therefore
returns only the FIRST id, as a bare string — contradicting the
function's own `List[str]` annotation and docstring — and raises
StopIteration on an empty `data` array.  This theorem evaluates the
embedded code at the failing input. -/
theorem C8_available_models_first_only :
    available_models (.ok (PyVal.dict [("data", PyVal.list
        [PyVal.dict [("id", PyVal.str "modelA")],
         PyVal.dict [("id", PyVal.str "modelB")]])])) = .ok (PyVal.str "modelA") ∧
      available_models (.ok (PyVal.dict [("data", PyVal.list [])])) =
        .error PyErr.stopIteration :=
  ⟨rfl, rfl⟩

/-- Discriminator: the outcome of an extraction helper is the converted
RuntimeError (the UnexpectedResponseShape condition). -/
def isRuntimeErrorResult : Except PyErr PyVal → Bool
  | .error (.runtimeError _) => true
  | _ => false

/-- C5: the claim says both the completion and the chat wrapper rewrite
a `HOSTED_MODEL` sentinel in the response.  `openai_chat_api.__call__`
returns the api result verbatim: invoking the chat wrapper (pinned model
`"actual_model"`) with a stubbed response whose model field is
`HOSTED_MODEL` returns that field unchanged, and `HOSTED_MODEL` is not
the wrapper's model name. -/
theorem C5_counterexample :
    (openai_chat_api.call
        (openai_api.mk (PyVal.str "actual_model") (some "actual_model") "k"
          "http://localhost:8000/v1" [])
        [] (.ok PyVal.none)
        (fun _ => .ok [("model", PyVal.str "HOSTED_MODEL"), ("x", PyVal.int 1)])
        (PyVal.list []) []).2 =
      .ok [("model", PyVal.str "HOSTED_MODEL"), ("x", PyVal.int 1)] ∧
      (openai_api.mk (PyVal.str "actual_model") (some "actual_model") "k"
        "http://localhost:8000/v1" []).model = PyVal.str "actual_model" ∧
      ("HOSTED_MODEL" : String) ≠ "actual_model" :=
  ⟨rfl, rfl, by decide⟩

/-- C5 (amended): only the completion wrapper (`openai_api.__call__`)
rewrites a response whose model field is the literal `HOSTED_MODEL` to
the wrapper's resolved model, leaving every other field unchanged; the
chat wrapper (`openai_chat_api.__call__`) returns the response exactly
as the API produced it, with no rewrite. -/
theorem C5_hosted_model_rewrite :
    (∀ (self : openai_api) (g : Globals) (r : Except PyErr PyVal)
        (f : List (String × PyVal) → Except PyErr (List (String × PyVal)))
        (prompt : String) (kwargs kw result : List (String × PyVal)),
      self.original_model.isSome = true →
      buildCallKwargs [("model", self.model), ("prompt", .str prompt)]
          [dictMerge self.parameters kwargs] = .ok kw →
      f kw = .ok result →
      result.lookup "model" = some (PyVal.str "HOSTED_MODEL") →
      (openai_api.call self g r f prompt kwargs).2 =
          .ok (dictInsert result "model" self.model) ∧
        (dictInsert result "model" self.model).lookup "model" = some self.model ∧
        ∀ k2, k2 ≠ "model" →
          (dictInsert result "model" self.model).lookup k2 = result.lookup k2) ∧
    (∀ (self : openai_api) (g : Globals) (r : Except PyErr PyVal)
        (f : List (String × PyVal) → Except PyErr (List (String × PyVal)))
        (messages : PyVal) (kwargs kw result : List (String × PyVal)),
      self.original_model.isSome = true →
      buildCallKwargs [("model", self.model), ("messages", messages)]
          [self.parameters, kwargs] = .ok kw →
      f kw = .ok result →
      (openai_chat_api.call self g r f messages kwargs).2 = .ok result) := by
  constructor
  · intro self g r f prompt kwargs kw result hpin hbuild hf hlook
    refine ⟨?_, lookup_dictInsert_self result "model" self.model,
      fun k2 hk2 => lookup_dictInsert_ne result "model" k2 self.model hk2⟩
    unfold openai_api.call
    simp only [claim_global_context_pinned self g r hpin, hbuild, hf]
    unfold hosted_model_rewrite
    rw [hlook]
    simp
  · intro self g r f messages kwargs kw result hpin hbuild hf
    unfold openai_chat_api.call
    simp only [claim_global_context_pinned self g r hpin, hbuild, hf]

/-- C5 witness: a pinned completion wrapper at model `"actual"`, a
stubbed response reporting `HOSTED_MODEL`, concrete kwargs. -/
theorem C5_witness :
    (openai_api.call (openai_api.mk (PyVal.str "actual") (some "actual") "k" "b" [])
        [] (.ok PyVal.none)
        (fun _ => .ok [("model", PyVal.str "HOSTED_MODEL"), ("text", PyVal.str "hi")])
        "p" []).2 =
      .ok (dictInsert [("model", PyVal.str "HOSTED_MODEL"), ("text", PyVal.str "hi")]
        "model" (PyVal.str "actual")) ∧
      (dictInsert [("model", PyVal.str "HOSTED_MODEL"), ("text", PyVal.str "hi")] "model"
          (PyVal.str "actual")).lookup "text" =
        [("model", PyVal.str "HOSTED_MODEL"), ("text", PyVal.str "hi")].lookup "text" :=
  ⟨(C5_hosted_model_rewrite.1 (openai_api.mk (PyVal.str "actual") (some "actual") "k" "b" [])
      [] (.ok PyVal.none)
      (fun _ => .ok [("model", PyVal.str "HOSTED_MODEL"), ("text", PyVal.str "hi")]) "p" []
      [("model", PyVal.str "actual"), ("prompt", PyVal.str "p")]
      [("model", PyVal.str "HOSTED_MODEL"), ("text", PyVal.str "hi")]
      rfl rfl rfl rfl).1,
   (C5_hosted_model_rewrite.1 (openai_api.mk (PyVal.str "actual") (some "actual") "k" "b" [])
      [] (.ok PyVal.none)
      (fun _ => .ok [("model", PyVal.str "HOSTED_MODEL"), ("text", PyVal.str "hi")]) "p" []
      [("model", PyVal.str "actual"), ("prompt", PyVal.str "p")]
      [("model", PyVal.str "HOSTED_MODEL"), ("text", PyVal.str "hi")]
      rfl rfl rfl rfl).2.2 "text" (by decide)⟩

/-- C7: the claim says every response lacking the expected extraction
path — including one whose `choices` sequence is present but empty —
fails with the UnexpectedResponseShape condition.  On an empty `choices`
list, `response['choices'][0]` raises IndexError, which the
`except KeyError` handler does not catch: both helpers fail with a bare
IndexError, not the RuntimeError carrying the response. -/
theorem C7_counterexample :
    first_choice_text (PyVal.dict [("choices", PyVal.list [])]) =
        .error PyErr.indexError ∧
      isRuntimeErrorResult
        (first_choice_text (PyVal.dict [("choices", PyVal.list [])])) = false ∧
      first_choice_message (PyVal.dict [("choices", PyVal.list [])]) =
        .error PyErr.indexError ∧
      isRuntimeErrorResult
        (first_choice_message (PyVal.dict [("choices", PyVal.list [])])) = false :=
  ⟨rfl, rfl, rfl, rfl⟩

/-- C7 (amended): for a response dict in which a KEY along the expected
path is missing (`choices` absent; or the first choice lacking `text`,
`message`, or `message.content` respectively), the extraction helpers
fail with the RuntimeError whose message embeds `repr(response)`; when
the path is present they return exactly that field's value; but when
`choices` is present and EMPTY they fail with an uncaught IndexError
instead of the UnexpectedResponseShape condition. -/
theorem C7_first_choice_extraction :
    (∀ d, d.lookup "choices" = Option.none →
      first_choice_text (.dict d) =
        .error (.runtimeError (completion_struct_msg (.dict d)))) ∧
    (∀ d c0 rest, d.lookup "choices" = some (.list (.dict c0 :: rest)) →
      c0.lookup "text" = Option.none →
      first_choice_text (.dict d) =
        .error (.runtimeError (completion_struct_msg (.dict d)))) ∧
    (∀ d c0 rest v, d.lookup "choices" = some (.list (.dict c0 :: rest)) →
      c0.lookup "text" = some v → first_choice_text (.dict d) = .ok v) ∧
    (∀ d, d.lookup "choices" = some (.list []) →
      first_choice_text (.dict d) = .error .indexError) ∧
    (∀ d, d.lookup "choices" = Option.none →
      first_choice_message (.dict d) =
        .error (.runtimeError (chat_struct_msg (.dict d)))) ∧
    (∀ d c0 rest, d.lookup "choices" = some (.list (.dict c0 :: rest)) →
      c0.lookup "message" = Option.none →
      first_choice_message (.dict d) =
        .error (.runtimeError (chat_struct_msg (.dict d)))) ∧
    (∀ d c0 rest m, d.lookup "choices" = some (.list (.dict c0 :: rest)) →
      c0.lookup "message" = some (.dict m) → m.lookup "content" = Option.none →
      first_choice_message (.dict d) =
        .error (.runtimeError (chat_struct_msg (.dict d)))) ∧
    (∀ d c0 rest m v, d.lookup "choices" = some (.list (.dict c0 :: rest)) →
      c0.lookup "message" = some (.dict m) → m.lookup "content" = some v →
      first_choice_message (.dict d) = .ok v) ∧
    (∀ d, d.lookup "choices" = some (.list []) →
      first_choice_message (.dict d) = .error .indexError) := by
  refine ⟨?_, ?_, ?_, ?_, ?_, ?_, ?_, ?_, ?_⟩
  · intro d h
    simp [first_choice_text, pySubscrStr, h, Except.bind]
  · intro d c0 rest h1 h2
    simp [first_choice_text, pySubscrStr, pySubscrIdx, h1, h2, Except.bind]
  · intro d c0 rest v h1 h2
    simp [first_choice_text, pySubscrStr, pySubscrIdx, h1, h2, Except.bind]
  · intro d h
    simp [first_choice_text, pySubscrStr, pySubscrIdx, h, Except.bind]
  · intro d h
    simp [first_choice_message, pySubscrStr, h, Except.bind]
  · intro d c0 rest h1 h2
    simp [first_choice_message, pySubscrStr, pySubscrIdx, h1, h2, Except.bind]
  · intro d c0 rest m h1 h2 h3
    simp [first_choice_message, pySubscrStr, pySubscrIdx, h1, h2, h3, Except.bind]
  · intro d c0 rest m v h1 h2 h3
    simp [first_choice_message, pySubscrStr, pySubscrIdx, h1, h2, h3, Except.bind]
  · intro d h
    simp [first_choice_message, pySubscrStr, pySubscrIdx, h, Except.bind]

/-- C7 witness: concrete responses discharging the hypotheses of
`C7_first_choice_extraction` — a dict without `choices`, a well-formed
completion response, and a well-formed chat response. -/
theorem C7_witness :
    first_choice_text (.dict [("foo", PyVal.int 1)]) =
        .error (.runtimeError (completion_struct_msg (.dict [("foo", PyVal.int 1)]))) ∧
      first_choice_text
          (.dict [("choices", PyVal.list [PyVal.dict [("text", PyVal.str "hi")]])]) =
        .ok (PyVal.str "hi") ∧
      first_choice_message
          (.dict [("choices", PyVal.list
            [PyVal.dict [("message", PyVal.dict [("content", PyVal.str "yo")])]])]) =
        .ok (PyVal.str "yo") :=
  ⟨C7_first_choice_extraction.1 [("foo", PyVal.int 1)] rfl,
   C7_first_choice_extraction.2.2.1
     [("choices", PyVal.list [PyVal.dict [("text", PyVal.str "hi")]])]
     [("text", PyVal.str "hi")] [] (PyVal.str "hi") rfl rfl,
   C7_first_choice_extraction.2.2.2.2.2.2.2.1
     [("choices", PyVal.list
       [PyVal.dict [("message", PyVal.dict [("content", PyVal.str "yo")])]])]
     [("message", PyVal.dict [("content", PyVal.str "yo")])] []
     [("content", PyVal.str "yo")] (PyVal.str "yo") rfl rfl rfl⟩

/-- C9: the claim says every field of the wrapper state — including
`model` — is unchanged across a failed call.  A wrapper constructed
without a pinned model re-introspects the hosted model inside
`_claim_global_context` on every call: with the endpoint now listing
`"beta1"`, a call whose completion request then fails leaves the
wrapper's `model` field changed from `"alpha"` to `"beta1"`. -/
theorem C9_counterexample :
    (openai_api.call (openai_api.mk (PyVal.str "alpha") Option.none "k" "b" [])
        [] (.ok (PyVal.dict [("data", PyVal.list [PyVal.dict [("id", PyVal.str "beta1")]])]))
        (fun _ => .error (.apiError "boom")) "p" []).2 = .error (.apiError "boom") ∧
      (openai_api.call (openai_api.mk (PyVal.str "alpha") Option.none "k" "b" [])
        [] (.ok (PyVal.dict [("data", PyVal.list [PyVal.dict [("id", PyVal.str "beta1")]])]))
        (fun _ => .error (.apiError "boom")) "p" []).1.1.model = PyVal.str "beta1" ∧
      (openai_api.mk (PyVal.str "alpha") Option.none "k" "b" []).model =
        PyVal.str "alpha" ∧
      ("beta1" : String) ≠ "alpha" :=
  ⟨rfl, rfl, rfl, by decide⟩

/-- C9 (amended): across any completion call, the wrapper fields
`original_model`, `parameters`, `api_key` and `api_base` are unchanged;
when a model was pinned at construction (`original_model` set) the whole
state — `model` included — is unchanged, and a failure of the underlying
API call propagates to the caller as the call's failure.  (Without a
pinned model, the `model` field may be re-resolved by introspection
before the failure, as the counterexample shows.) -/
theorem C9_failed_call_state :
    (∀ (self : openai_api) (g : Globals) (r : Except PyErr PyVal)
        (f : List (String × PyVal) → Except PyErr (List (String × PyVal)))
        (prompt : String) (kwargs : List (String × PyVal)),
      (openai_api.call self g r f prompt kwargs).1.1.original_model =
          self.original_model ∧
        (openai_api.call self g r f prompt kwargs).1.1.parameters = self.parameters ∧
        (openai_api.call self g r f prompt kwargs).1.1.api_key = self.api_key ∧
        (openai_api.call self g r f prompt kwargs).1.1.api_base = self.api_base ∧
        (self.original_model.isSome = true →
          (openai_api.call self g r f prompt kwargs).1.1 = self)) ∧
    (∀ (self : openai_api) (g : Globals) (r : Except PyErr PyVal)
        (f : List (String × PyVal) → Except PyErr (List (String × PyVal)))
        (prompt : String) (kwargs kw : List (String × PyVal)) (e : PyErr),
      self.original_model.isSome = true →
      buildCallKwargs [("model", self.model), ("prompt", .str prompt)]
          [dictMerge self.parameters kwargs] = .ok kw →
      f kw = .error e →
      (openai_api.call self g r f prompt kwargs).2 = .error e) := by
  constructor
  · intro self g r f prompt kwargs
    rcases call_state_cases self g r f prompt kwargs with hc | hc
    · rw [hc]
      exact ⟨rfl, rfl, rfl, rfl, fun _ => rfl⟩
    · obtain ⟨h1, h2, h3, h4⟩ := claim_global_context_ok_fields self _ g r hc
      refine ⟨h1, h2, h3, h4, fun hpin => ?_⟩
      have hp := claim_global_context_pinned self g r hpin
      rw [hp] at hc
      exact (Except.ok.inj hc).symm
  · intro self g r f prompt kwargs kw e hpin hbuild hf
    unfold openai_api.call
    simp only [claim_global_context_pinned self g r hpin, hbuild, hf]

/-- C9 witness: a pinned wrapper and a failing completion call — the
failure propagates and the final state equals the initial state. -/
theorem C9_witness :
    (openai_api.call (openai_api.mk (PyVal.str "m") (some "m") "k" "b" [])
        [] (.ok PyVal.none) (fun _ => .error (.apiError "boom")) "p" []).2 =
      .error (.apiError "boom") ∧
      (openai_api.call (openai_api.mk (PyVal.str "m") (some "m") "k" "b" [])
        [] (.ok PyVal.none) (fun _ => .error (.apiError "boom")) "p" []).1.1 =
      openai_api.mk (PyVal.str "m") (some "m") "k" "b" [] :=
  ⟨C9_failed_call_state.2 (openai_api.mk (PyVal.str "m") (some "m") "k" "b" [])
      [] (.ok PyVal.none) (fun _ => .error (.apiError "boom")) "p" []
      [("model", PyVal.str "m"), ("prompt", PyVal.str "p")] (.apiError "boom")
      rfl rfl rfl,
   (C9_failed_call_state.1 (openai_api.mk (PyVal.str "m") (some "m") "k" "b" [])
      [] (.ok PyVal.none) (fun _ => .error (.apiError "boom")) "p" []).2.2.2.2 rfl⟩

/-- C6: the claim says both wrappers merge stored parameters with
call-time overrides, call-time winning, and never fail on a key
collision.  The chat wrapper passes `**self.parameters, **kwargs` as two
separate expansions in the call, so a key present in both (here
`temperature`) raises TypeError instead of merging. -/
theorem C6_counterexample :
    (openai_chat_api.call
        (openai_api.mk (PyVal.str "m") (some "m") "k" "b"
          [("temperature", PyVal.int 1)])
        [] (.ok PyVal.none) (fun _ => .ok []) (PyVal.list [])
        [("temperature", PyVal.int 0)]).2 =
      .error (.typeError "got multiple values for keyword argument \x27temperature\x27") :=
  rfl

/-- C6 (amended): the completion wrapper merges the stored parameter bag
with the call-time overrides — the assembled request succeeds and maps
every colliding key to its call-time value, and the call dispatches with
that request — while the chat wrapper fails with a TypeError whenever a
call-time key also appears in the stored parameter bag. -/
theorem C6_param_merge :
    (∀ (self : openai_api) (prompt : String) (kwargs : List (String × PyVal))
        (k : String),
      (self.parameters.map Prod.fst).Nodup →
      (kwargs.map Prod.fst).Nodup →
      k ∈ self.parameters.map Prod.fst →
      k ∈ kwargs.map Prod.fst →
      "model" ∉ (dictMerge self.parameters kwargs).map Prod.fst →
      "prompt" ∉ (dictMerge self.parameters kwargs).map Prod.fst →
      buildCallKwargs [("model", self.model), ("prompt", .str prompt)]
          [dictMerge self.parameters kwargs] =
        .ok ([("model", self.model), ("prompt", .str prompt)] ++
          dictMerge self.parameters kwargs) ∧
      ([("model", self.model), ("prompt", .str prompt)] ++
          dictMerge self.parameters kwargs).lookup k = kwargs.lookup k ∧
      ∀ (g : Globals) (r : Except PyErr PyVal)
          (f : List (String × PyVal) → Except PyErr (List (String × PyVal)))
          (result : List (String × PyVal)),
        self.original_model.isSome = true →
        f ([("model", self.model), ("prompt", .str prompt)] ++
          dictMerge self.parameters kwargs) = .ok result →
        (openai_api.call self g r f prompt kwargs).2 =
          .ok (hosted_model_rewrite self.model result)) ∧
    (∀ (self : openai_api) (g : Globals) (r : Except PyErr PyVal)
        (f : List (String × PyVal) → Except PyErr (List (String × PyVal)))
        (messages : PyVal) (kwargs : List (String × PyVal)) (k : String),
      self.original_model.isSome = true →
      k ∈ self.parameters.map Prod.fst →
      k ∈ kwargs.map Prod.fst →
      isTypeErrorResult (openai_chat_api.call self g r f messages kwargs).2 = true) := by
  constructor
  · intro self prompt kwargs k hndp hndk hkp hkk hm hp
    have hmergedK : ∀ k2 ∈ (dictMerge self.parameters kwargs).map Prod.fst,
        ([("model", self.model), ("prompt", PyVal.str prompt)] :
          List (String × PyVal)).lookup k2 = Option.none := by
      intro k2 hk2
      have hne1 : k2 ≠ "model" := fun hc => hm (hc ▸ hk2)
      have hne2 : k2 ≠ "prompt" := fun hc => hp (hc ▸ hk2)
      simp [List.lookup, beq_eq_false_iff_ne.mpr hne1, beq_eq_false_iff_ne.mpr hne2]
    have hnd : ((dictMerge self.parameters kwargs).map Prod.fst).Nodup :=
      dictMerge_keys_nodup self.parameters kwargs hndp
    have hbuild : buildCallKwargs [("model", self.model), ("prompt", .str prompt)]
        [dictMerge self.parameters kwargs] =
        .ok ([("model", self.model), ("prompt", .str prompt)] ++
          dictMerge self.parameters kwargs) := by
      rw [buildCallKwargs_single]
      exact mergeCallDict_ok_of_disjoint _ _ hnd hmergedK
    have hlookup_merged : (dictMerge self.parameters kwargs).lookup k = kwargs.lookup k :=
      dictMerge_lookup_mem self.parameters kwargs k hndk hkk
    have hkmem : k ∈ (dictMerge self.parameters kwargs).map Prod.fst := by
      apply mem_keys_of_lookup_isSome
      rw [hlookup_merged]
      exact lookup_isSome_of_mem_keys kwargs k hkk
    have h2 : ([("model", self.model), ("prompt", PyVal.str prompt)] ++
        dictMerge self.parameters kwargs).lookup k = kwargs.lookup k := by
      rw [lookup_append_of_none _ _ k (hmergedK k hkmem), hlookup_merged]
    refine ⟨hbuild, h2, ?_⟩
    intro g r f result hpin hf
    unfold openai_api.call
    simp only [claim_global_context_pinned self g r hpin, hbuild, hf]
  · intro self g r f messages kwargs k hpin hkp hkk
    unfold openai_chat_api.call
    simp only [claim_global_context_pinned self g r hpin]
    rcases hb : buildCallKwargs [("model", self.model), ("messages", messages)]
        [self.parameters, kwargs] with e | out
    · obtain ⟨m, hm2⟩ := buildCallKwargs_pair_error_shape _ _ _ _ hb
      subst hm2
      simp [hb, isTypeErrorResult]
    · exfalso
      unfold buildCallKwargs at hb
      rcases h1 : mergeCallDict [("model", self.model), ("messages", messages)]
          self.parameters with e1 | mid
      · rw [h1] at hb
        exact Except.noConfusion
          (show (Except.error e1 : Except PyErr (List (String × PyVal))) = .ok out from hb)
      · rw [h1] at hb
        change buildCallKwargs mid [kwargs] = .ok out at hb
        rw [buildCallKwargs_single] at hb
        have hdisj := mergeCallDict_ok_disjoint mid kwargs out hb k hkk
        have hmid := mergeCallDict_ok_append _ _ _ h1
        subst hmid
        have hnone := (lookup_append_none _ _ k hdisj).2
        have hsome := lookup_isSome_of_mem_keys self.parameters k hkp
        rw [hnone] at hsome
        simp at hsome

/-- C6 witness: a wrapper whose parameter bag pins `temperature := 1`
and a call overriding `temperature := 0` — the completion request
assembles with the call-time value, the chat call raises TypeError. -/
theorem C6_witness :
    buildCallKwargs
        [("model", (openai_api.mk (PyVal.str "m") (some "m") "k" "b"
          [("temperature", PyVal.int 1)]).model), ("prompt", .str "p")]
        [dictMerge (openai_api.mk (PyVal.str "m") (some "m") "k" "b"
          [("temperature", PyVal.int 1)]).parameters [("temperature", PyVal.int 0)]] =
      .ok ([("model", (openai_api.mk (PyVal.str "m") (some "m") "k" "b"
          [("temperature", PyVal.int 1)]).model), ("prompt", .str "p")] ++
        dictMerge (openai_api.mk (PyVal.str "m") (some "m") "k" "b"
          [("temperature", PyVal.int 1)]).parameters [("temperature", PyVal.int 0)]) ∧
      ([("model", (openai_api.mk (PyVal.str "m") (some "m") "k" "b"
          [("temperature", PyVal.int 1)]).model), ("prompt", .str "p")] ++
        dictMerge (openai_api.mk (PyVal.str "m") (some "m") "k" "b"
          [("temperature", PyVal.int 1)]).parameters
          [("temperature", PyVal.int 0)]).lookup "temperature" =
        ([("temperature", PyVal.int 0)] : List (String × PyVal)).lookup "temperature" ∧
      isTypeErrorResult (openai_chat_api.call
        (openai_api.mk (PyVal.str "m") (some "m") "k" "b"
          [("temperature", PyVal.int 1)])
        [] (.ok PyVal.none) (fun _ => .ok []) (PyVal.list [])
        [("temperature", PyVal.int 0)]).2 = true :=
  ⟨(C6_param_merge.1 (openai_api.mk (PyVal.str "m") (some "m") "k" "b"
      [("temperature", PyVal.int 1)]) "p" [("temperature", PyVal.int 0)] "temperature"
      (by decide) (by decide) (by decide) (by decide) (by decide) (by decide)).1,
   (C6_param_merge.1 (openai_api.mk (PyVal.str "m") (some "m") "k" "b"
      [("temperature", PyVal.int 1)]) "p" [("temperature", PyVal.int 0)] "temperature"
      (by decide) (by decide) (by decide) (by decide) (by decide) (by decide)).2.1,
   C6_param_merge.2 (openai_api.mk (PyVal.str "m") (some "m") "k" "b"
      [("temperature", PyVal.int 1)]) [] (.ok PyVal.none) (fun _ => .ok [])
      (PyVal.list []) [("temperature", PyVal.int 0)] "temperature"
      rfl (by decide) (by decide)⟩
